import Mathlib

/-!
Verification development for the Graphiti MCP server
(repository: mcp-rawr-graphiti, main module `graphiti_mcp_server.py`).

The Python source is shallowly embedded: pure code becomes Lean functions,
the asyncio queue/worker machinery becomes an explicit step relation on a
server-state record, and the external collaborators (the `graphiti_core`
library, the JSON parser of the standard library, the Neo4j store) appear as
parameters.  Python dictionaries are modelled as association lists with
insertion-order update semantics.
-/

namespace Graphiti

/-! ## Python dictionaries as association lists -/

/-- Model of Python dict assignment `d[k] = v`: replaces the value in place if
the key is present, appends a new binding otherwise. -/
def dset {α : Type} (d : List (String × α)) (k : String) (v : α) :
    List (String × α) :=
  match d with
  | [] => [(k, v)]
  | (k0, v0) :: rest =>
      if k0 = k then (k, v) :: rest else (k0, v0) :: dset rest k v

/-- Model of Python dict lookup `d.get(k)` / `d[k]`. -/
def dget {α : Type} (d : List (String × α)) (k : String) : Option α :=
  match d with
  | [] => none
  | (k0, v0) :: rest => if k0 = k then some v0 else dget rest k

theorem dget_dset {α : Type} (d : List (String × α)) (k : String) (v : α) :
    dget (dset d k v) k = some v := by
  induction d with
  | nil => simp [dset, dget]
  | cons hd tl ih =>
      obtain ⟨k0, v0⟩ := hd
      by_cases h : k0 = k
      · simp [dset, dget, h]
      · simp [dset, dget, h, ih]

/-- Model of Python `str.lower()` (the inputs of interest are ASCII). -/
def pyLower (s : String) : String := String.mk (s.data.map Char.toLower)

/-! ## Entity registry (`entities/entity_registry.py`)

An entity class (a Pydantic model class in the source) is identified
abstractly by a natural number; distinct numbers stand for distinct classes.
The registry `_ENTITY_REGISTRY` is a dict from names to classes. -/

/-- An abstract entity (Pydantic model) class. -/
abbrev EntityClass := Nat

/-- The `_ENTITY_REGISTRY` dict of `entities/entity_registry.py`. -/
abbrev Registry := List (String × EntityClass)

/-- `register_entity(name, entity_class)`: performs
`_ENTITY_REGISTRY[name] = entity_class`.  The second component is the list of
warning messages the call emits; the source function body contains no logging
call, so it is always empty. -/
def register_entity (r : Registry) (name : String) (c : EntityClass) :
    Registry × List String :=
  (dset r name c, [])

/-- `get_entities()`: returns the registry itself (the source returns the
actual dict reference, not a copy). -/
def get_entities (r : Registry) : Registry := r

/-- `get_entity_subset(names)`: the bindings of the registry whose names occur
in the requested list; absent names are silently omitted. -/
def get_entity_subset (r : Registry) (names : List String) : Registry :=
  r.filter (fun p => names.contains p.1)

/-! ## Server configuration (`GraphitiConfig`, `graphiti_mcp_server.py`) -/

/-- The process environment (`os.environ`), as a partial map. -/
abbrev Environ := List (String × String)

/-- `os.environ.get(k)`. -/
def getenv (env : Environ) (k : String) : Option String := dget env k

/-- The `GraphitiConfig` Pydantic model. -/
structure GraphitiConfig where
  neo4j_uri : String := "bolt://neo4j:7687"
  neo4j_user : String := "neo4j"
  neo4j_password : String := "password"
  openai_api_key : Option String := none
  openai_base_url : Option String := none
  model_name : Option String := none
  group_id : Option String := none
  use_custom_entities : Bool := false
deriving DecidableEq

/-- `GraphitiConfig.from_env()`: reads the connection settings from the
environment and refuses the fixed default Neo4j password unless the
`GRAPHITI_ENV` flag is set (case-insensitively) to `dev` or `development`.
The fatal `raise ValueError` of the source is embedded as `Except.error`. -/
def GraphitiConfig.from_env (env : Environ) : Except String GraphitiConfig :=
  let neo4j_uri := (getenv env "NEO4J_URI").getD "bolt://neo4j:7687"
  let neo4j_user := (getenv env "NEO4J_USER").getD "neo4j"
  let neo4j_password := (getenv env "NEO4J_PASSWORD").getD "password"
  let openai_api_key := getenv env "OPENAI_API_KEY"
  let openai_base_url := getenv env "OPENAI_BASE_URL"
  let model_name := getenv env "MODEL_NAME"
  let env_context := pyLower ((getenv env "GRAPHITI_ENV").getD "")
  if neo4j_password = "password" ∧ env_context ≠ "dev" ∧
      env_context ≠ "development" then
    Except.error
      "Default Neo4j password is insecure and not allowed in non-development environments. Set a strong NEO4J_PASSWORD."
  else
    Except.ok
      { neo4j_uri := neo4j_uri
        neo4j_user := neo4j_user
        neo4j_password := neo4j_password
        openai_api_key := openai_api_key
        openai_base_url := openai_base_url
        model_name := model_name }

/-! ## Episodes and the `add_episode` tool (`graphiti_mcp_server.py`)

`add_episode` runs a synchronous section (format mapping, namespace
resolution, queue creation, enqueue, worker-spawn check) and returns an
immediate acknowledgement; the enqueued closure `process_episode` runs later
inside the per-namespace worker.  On the asyncio event loop the synchronous
section contains no suspension point (`Queue.put` on an unbounded queue does
not yield), so it is embedded as one atomic transition. -/

/-- The `EpisodeType` enum of `graphiti_core.nodes`. -/
inductive EpisodeType where
  | text
  | message
  | json
deriving DecidableEq

/-- The format-to-source mapping at the top of `add_episode`: default
`text`, with case-insensitive recognition of `message` and `json`. -/
def sourceTypeOfFormat (format : String) : EpisodeType :=
  if pyLower format = "message" then EpisodeType.message
  else if pyLower format = "json" then EpisodeType.json
  else EpisodeType.text

/-- The arguments of the `add_episode` tool. -/
structure AddEpisodeArgs where
  name : String
  episode_body : String
  group_id : Option String := none
  format : String := "text"
  source_description : String := ""
  uuid : Option String := none
  entity_subset : Option (List String) := none
deriving DecidableEq

/-- The data captured by the enqueued `process_episode` closure: the episode
fields, the resolved source type and namespace string, and the (unused)
`entity_subset` argument. -/
structure EpisodeTask where
  name : String
  body : String
  source : EpisodeType
  group_id : String
  source_description : String
  uuid : Option String
  entity_subset : Option (List String)
deriving DecidableEq

/-- The closure built by `add_episode` from its arguments and the config:
`source_type` from the format string, and the effective namespace string
(argument, else config default, else the empty string). -/
def mkTask (cfg : GraphitiConfig) (args : AddEpisodeArgs) : EpisodeTask :=
  { name := args.name
    body := args.episode_body
    source := sourceTypeOfFormat args.format
    group_id := ((args.group_id).orElse (fun _ => cfg.group_id)).getD ""
    source_description := args.source_description
    uuid := args.uuid
    entity_subset := args.entity_subset }

/-- The immediate response of the `add_episode` tool: the queued
acknowledgement (with the queue size reported in the message) or the error
record. -/
inductive AddEpisodeResult where
  | queued (name : String) (position : Nat)
  | error (message : String)
deriving DecidableEq

/-- Whether the response is the queued acknowledgement. -/
def AddEpisodeResult.isQueued : AddEpisodeResult → Bool
  | AddEpisodeResult.queued _ _ => true
  | AddEpisodeResult.error _ => false

/-- One worker coroutine created by `asyncio.create_task
(process_episode_queue(g))`: its namespace and the task it is currently
processing, if any (it holds a task from `queue.get()` until `task_done`). -/
structure WorkerState where
  group_id : String
  current : Option EpisodeTask
deriving DecidableEq

/-- The module-level mutable state of the server around the ingestion
queues, plus the scheduler bookkeeping needed to embed asyncio:
`created_tasks` are worker coroutines that `asyncio.create_task` has
scheduled but that the event loop has not started running yet (such a worker
has not yet executed `queue_workers[g] = True`).  `enqueue_log` and
`complete_log` are history variables recording enqueue order and
processing-completion order. -/
structure ServerState where
  episode_queues : List (String × List EpisodeTask) := []
  queue_workers : List (String × Bool) := []
  created_tasks : List String := []
  workers : List WorkerState := []
  enqueue_log : List (String × EpisodeTask) := []
  complete_log : List (String × EpisodeTask) := []
deriving DecidableEq

/-- The synchronous section of the `add_episode` tool: error when the client
is not initialised; otherwise build the task, create the queue on first use,
enqueue, and schedule a new worker coroutine whenever
`queue_workers.get(group_id_str, False)` is falsy. -/
def add_episode (cfg : GraphitiConfig) (clientReady : Bool)
    (st : ServerState) (args : AddEpisodeArgs) :
    AddEpisodeResult × ServerState :=
  if !clientReady then
    (AddEpisodeResult.error "Graphiti client not initialized", st)
  else
    let task := mkTask cfg args
    let g := task.group_id
    let queues0 :=
      match dget st.episode_queues g with
      | none => dset st.episode_queues g []
      | some _ => st.episode_queues
    let pending := (dget queues0 g).getD []
    let queues1 := dset queues0 g (pending ++ [task])
    let workerRunning := (dget st.queue_workers g).getD false
    let created :=
      if workerRunning then st.created_tasks else st.created_tasks ++ [g]
    let st' : ServerState :=
      { st with
        episode_queues := queues1
        created_tasks := created
        enqueue_log := st.enqueue_log ++ [(g, task)] }
    (AddEpisodeResult.queued args.name ((dget queues1 g).getD []).length, st')

/-! ## The asyncio scheduler as a step relation

Each event is one atomic segment of the source between suspension points:
a whole `add_episode` synchronous section, the first lines of a worker
coroutine up to and including `queue_workers[g] = True` and its first
`queue.get()` wait, a `queue.get()` returning a task, and the completion of
`await process_func()` followed by `task_done()`. -/

/-- A scheduler event. -/
inductive SchedEvent where
  | call (args : AddEpisodeArgs)
  | startWorker (i : Nat)
  | workerGet (i : Nat)
  | workerFinish (i : Nat)

/-- One scheduler step; `none` when the event is not enabled in the given
state. -/
def step (cfg : GraphitiConfig) (st : ServerState) (e : SchedEvent) :
    Option ServerState :=
  match e with
  | SchedEvent.call args =>
      match add_episode cfg true st args with
      | (AddEpisodeResult.queued _ _, st') => some st'
      | (AddEpisodeResult.error _, _) => none
  | SchedEvent.startWorker i =>
      match st.created_tasks.get? i with
      | none => none
      | some g =>
          some { st with
            created_tasks := st.created_tasks.eraseIdx i
            queue_workers := dset st.queue_workers g true
            workers := st.workers ++ [{ group_id := g, current := none }] }
  | SchedEvent.workerGet i =>
      match st.workers.get? i with
      | none => none
      | some w =>
          match w.current with
          | some _ => none
          | none =>
              match (dget st.episode_queues w.group_id).getD [] with
              | [] => none
              | t :: rest =>
                  some { st with
                    episode_queues := dset st.episode_queues w.group_id rest
                    workers :=
                      st.workers.set i { w with current := some t } }
  | SchedEvent.workerFinish i =>
      match st.workers.get? i with
      | none => none
      | some w =>
          match w.current with
          | none => none
          | some t =>
              some { st with
                workers := st.workers.set i { w with current := none }
                complete_log := st.complete_log ++ [(w.group_id, t)] }

/-- Run a sequence of scheduler events; `none` if any event is not enabled
where it occurs. -/
def run (cfg : GraphitiConfig) (st : ServerState) :
    List SchedEvent → Option ServerState
  | [] => some st
  | e :: es =>
      match step cfg st e with
      | none => none
      | some st' => run cfg st' es

/-- The number of tasks of namespace `g` currently in the processing state
(held by some worker between `queue.get()` and `task_done()`). -/
def processingCount (st : ServerState) (g : String) : Nat :=
  (st.workers.filter
    (fun w => w.group_id = g ∧ w.current.isSome)).length

/-! ## The background `process_episode` closure

The closure parses the body when the source type is `json` (logging and
continuing on failure), always resolves the entity set with `get_entities()`,
and then calls `client.add_episode` of the external `graphiti_core` library
with the ORIGINAL body string and the source type determined up front.  The
JSON parser (`json.loads` of the Python standard library) is an external
collaborator and appears as a parameter; only success or failure of the
parse is observable in this code path, since the parsed value
`processed_body` is never used afterwards. -/

/-- The arguments of the single `client.add_episode` call the closure makes
into the external graph-store / extractor pipeline. -/
structure PersistCall where
  name : String
  episode_body : String
  source : EpisodeType
  source_description : String
  group_id : String
  uuid : Option String
  entity_types : Registry
deriving DecidableEq

/-- The observable outcome of one run of the `process_episode` closure:
whether the invalid-JSON error was logged, the call handed to the pipeline,
and whether the community rebuild was triggered afterwards. -/
structure ProcessOutcome where
  parse_error_logged : Bool
  persist : PersistCall
  communities_rebuilt : Bool
deriving DecidableEq

/-- The `process_episode` closure, given the external JSON parser and the
entity registry at processing time (registration happens only during
startup, so this is also the registry as of startup). -/
def process_episode (parseJson : String → Option Unit) (registry : Registry)
    (task : EpisodeTask) : ProcessOutcome :=
  let parseFailed :=
    task.source = EpisodeType.json ∧ (parseJson task.body).isNone
  let entities_to_use := get_entities registry
  { parse_error_logged := parseFailed
    persist :=
      { name := task.name
        episode_body := task.body
        source := task.source
        source_description := task.source_description
        group_id := task.group_id
        uuid := task.uuid
        entity_types := entities_to_use }
    communities_rebuilt := true }

/-! ## The `get_episodes` tool -/

/-- An episode record as returned to the client (the `model_dump` of an
`EpisodicNode`), kept abstract. -/
abbrev EpisodeRecord := String

/-- The three shapes `get_episodes` can return: the bare list of episode
records, the message-plus-episodes record used when nothing was found, and
the error record. -/
inductive GetEpisodesResult where
  | episodeList (episodes : List EpisodeRecord)
  | messageShape (message : String) (episodes : List EpisodeRecord)
  | errorShape (message : String)
deriving DecidableEq

/-- Whether the result is the bare-list success shape. -/
def GetEpisodesResult.isEpisodeList : GetEpisodesResult → Bool
  | GetEpisodesResult.episodeList _ => true
  | _ => false

/-- Whether the result is the error shape. -/
def GetEpisodesResult.isError : GetEpisodesResult → Bool
  | GetEpisodesResult.errorShape _ => true
  | _ => false

/-- The `get_episodes` tool.  `retrieve` stands for
`client.retrieve_episodes` of the external `graphiti_core` library
(most-recent-first list for a namespace and a count). -/
def get_episodes (retrieve : String → Nat → List EpisodeRecord)
    (cfg : GraphitiConfig) (clientReady : Bool)
    (group_id : Option String) (last_n : Nat) : GetEpisodesResult :=
  if !clientReady then
    GetEpisodesResult.errorShape "Graphiti client not initialized"
  else
    match (group_id).orElse (fun _ => cfg.group_id) with
    | none => GetEpisodesResult.errorShape "Group ID must be a string"
    | some g =>
        let episodes := retrieve g last_n
        if episodes.isEmpty then
          GetEpisodesResult.messageShape
            ("No episodes found for group " ++ g) []
        else
          GetEpisodesResult.episodeList episodes

/-! ## The `clear_graph` tool and its destructive-operation guard

The authorization code `graph_clear_auth_code` is an 8-character prefix of a
fresh random UUID.  It is modelled as a natural number drawn from a
successor generator: rotation replaces the current code with a value
different from it, which is what the fresh random draw guarantees.  An auth
string is classified by whether it has the shape
`code + "_DELETE_THIS_GRAPH"` for some code; distinct codes give distinct
strings. -/

/-- A string passable as the `auth` argument: either of the accepted shape
(a code followed by the fixed delete suffix) or any other string. -/
inductive AuthTok where
  | codeSuffix (code : Nat)
  | other (s : String)
deriving DecidableEq

/-- The mutable guard state: the current `graph_clear_auth_code`. -/
structure GuardState where
  auth_code : Nat
deriving DecidableEq

/-- Code rotation (`graph_clear_auth_code = str(uuid.uuid4())[:8]`): a fresh
code, different from the current one. -/
def rotateCode (st : GuardState) : GuardState :=
  { auth_code := st.auth_code + 1 }

/-- The abstract graph store contents and index state, as touched by
`clear_data` and `build_indices_and_constraints`. -/
structure GraphStore where
  data : List String
  indices_built : Bool
deriving DecidableEq

/-- The possible responses of `clear_graph`. -/
inductive ClearGraphResult where
  | permissionDenied
  | authRequired (code : Nat)
  | authInvalid (newCode : Nat)
  | clientNotReady
  | cleared
deriving DecidableEq

/-- The `clear_graph` tool.  In source order: the root-namespace check
against `MCP_ROOT_GROUP_ID` (default `root`), the missing-auth branch
(returns the CURRENT code, unrotated), the mismatched-auth branch (rotates,
returns the new code), the client-readiness check, and finally
`clear_data` + `build_indices_and_constraints` + rotation + success. -/
def clear_graph (env : Environ) (cfg : GraphitiConfig) (clientReady : Bool)
    (st : GuardState) (g : GraphStore) (auth : Option AuthTok) :
    ClearGraphResult × GuardState × GraphStore :=
  let root_group_id := (getenv env "MCP_ROOT_GROUP_ID").getD "root"
  if cfg.group_id ≠ some root_group_id then
    (ClearGraphResult.permissionDenied, st, g)
  else
    match auth with
    | none => (ClearGraphResult.authRequired st.auth_code, st, g)
    | some a =>
        let expected := AuthTok.codeSuffix st.auth_code
        if a ≠ expected then
          let st' := rotateCode st
          (ClearGraphResult.authInvalid st'.auth_code, st', g)
        else if !clientReady then
          (ClearGraphResult.clientNotReady, st, g)
        else
          let g' : GraphStore := { data := [], indices_built := true }
          let st' := rotateCode st
          (ClearGraphResult.cleared, st', g')

/-! ## Concrete fixtures used by witnesses and counterexamples -/

/-- A config whose default namespace is the root namespace. -/
def cfgRoot : GraphitiConfig := { group_id := some "root" }

/-- A config whose default namespace is `demo`, not the root namespace. -/
def cfgDemo : GraphitiConfig := { group_id := some "demo" }

/-- A config with no default namespace set. -/
def cfg0 : GraphitiConfig := {}

/-- The initial (empty) ingestion-engine state. -/
def st0 : ServerState := {}

/-- A nonempty abstract graph store. -/
def store0 : GraphStore := { data := ["n1", "n2"], indices_built := true }

/-- A guard state with a concrete current authorization code. -/
def guard0 : GuardState := { auth_code := 5 }

/-- A JSON parser that fails on every input, standing for `json.loads` on
strings that are not valid JSON. -/
def parseNone : String → Option Unit := fun _ => none

/-- A small concrete entity registry. -/
def regDemo : Registry := [("Preference", 1), ("Procedure", 2)]

/-- A graph store with no episodes in any namespace, seen through
`retrieve_episodes`. -/
def retrieveEmpty : String → Nat → List EpisodeRecord := fun _ _ => []

/-! ## C7: fatal configuration loading -/

/-- Claim C7: loading the configuration from the environment fails fatally
iff the Neo4j password equals the fixed default `password` and the
`GRAPHITI_ENV` flag is not set (case-insensitively) to a development value;
in every other case the configuration object is constructed. -/
theorem C7_from_env_fatal_iff (env : Environ) :
    (GraphitiConfig.from_env env).isOk = false ↔
      ((getenv env "NEO4J_PASSWORD").getD "password" = "password" ∧
       pyLower ((getenv env "GRAPHITI_ENV").getD "") ≠ "dev" ∧
       pyLower ((getenv env "GRAPHITI_ENV").getD "") ≠ "development") := by
  simp only [GraphitiConfig.from_env]
  split
  · next h => exact ⟨fun _ => h, fun _ => rfl⟩
  · next h => exact ⟨fun hf => Bool.noConfusion hf, fun hc => absurd hc h⟩

/-! ## C3: the per-call entity subset is ignored -/

/-- Claim C3: for every `add_episode` call, the entity set handed to the
extraction pipeline is exactly `get_entities()`, the full registry as of
startup, and the per-call `entity_subset` argument has no effect on the
processing outcome. -/
theorem C3_entity_subset_ignored (parseJson : String → Option Unit)
    (registry : Registry) (cfg : GraphitiConfig) (args : AddEpisodeArgs)
    (s : Option (List String)) :
    (process_episode parseJson registry (mkTask cfg args)).persist.entity_types
        = get_entities registry ∧
    process_episode parseJson registry
        (mkTask cfg { args with entity_subset := s }) =
      process_episode parseJson registry (mkTask cfg args) :=
  ⟨rfl, rfl⟩

/-! ## C5: clear_graph outside the root namespace -/

/-- Claim C5: whenever the configured default namespace differs from the
configured root namespace, every `clear_graph` call returns the
permission-denied error, for every auth value, and neither the guard state
nor the graph store changes. -/
theorem C5_clear_graph_permission_denied (env : Environ)
    (cfg : GraphitiConfig) (clientReady : Bool) (st : GuardState)
    (g : GraphStore) (auth : Option AuthTok)
    (h : cfg.group_id ≠ some ((getenv env "MCP_ROOT_GROUP_ID").getD "root")) :
    clear_graph env cfg clientReady st g auth =
      (ClearGraphResult.permissionDenied, st, g) := by
  simp [clear_graph, h]

/-- Witness for C5 at a concrete non-root configuration. -/
theorem C5_clear_graph_permission_denied_witness :
    (cfgDemo.group_id ≠
        some ((getenv ([] : Environ) "MCP_ROOT_GROUP_ID").getD "root")) ∧
    clear_graph [] cfgDemo true guard0 store0
        (some (AuthTok.codeSuffix 5)) =
      (ClearGraphResult.permissionDenied, guard0, store0) :=
  ⟨by decide,
   C5_clear_graph_permission_denied [] cfgDemo true guard0 store0
     (some (AuthTok.codeSuffix 5)) (by decide)⟩

/-! ## C10: unrecognized format strings fall back to text -/

/-- Claim C10: an `add_episode` call whose format string is not
(case-insensitively) `message` or `json` — for instance `xml` — is accepted
(queued), not rejected, and its task carries the `text` source type. -/
theorem C10_unrecognized_format_is_text (cfg : GraphitiConfig)
    (st : ServerState) (args : AddEpisodeArgs)
    (h1 : pyLower args.format ≠ "message")
    (h2 : pyLower args.format ≠ "json") :
    (add_episode cfg true st args).1.isQueued = true ∧
    (mkTask cfg args).source = EpisodeType.text := by
  constructor
  · simp [add_episode, AddEpisodeResult.isQueued]
  · simp [mkTask, sourceTypeOfFormat, h1, h2]

/-- Witness for C10 with the format string `xml`. -/
theorem C10_unrecognized_format_is_text_witness :
    (pyLower "xml" ≠ "message") ∧ (pyLower "xml" ≠ "json") ∧
    ((add_episode cfg0 true st0
        { name := "X", episode_body := "b", format := "xml" }).1.isQueued
        = true ∧
     (mkTask cfg0
        { name := "X", episode_body := "b", format := "xml" }).source
        = EpisodeType.text) :=
  ⟨by decide, by decide,
   C10_unrecognized_format_is_text cfg0 st0
     { name := "X", episode_body := "b", format := "xml" }
     (by decide) (by decide)⟩

/-! ## C4: rotation of the clear-graph authorization code -/

/-- Claim C4 counterexample: a `clear_graph` call with no auth returns the
AuthRequired error carrying the current code and leaves the guard state
unchanged (no rotation), and the immediately following call built from that
same prior code succeeds — so after an AuthRequired response the prior code
is NOT rejected. -/
theorem C4_counterexample :
    (clear_graph [] cfgRoot true guard0 store0 none).1 =
        ClearGraphResult.authRequired 5 ∧
    (clear_graph [] cfgRoot true guard0 store0 none).2.1 = guard0 ∧
    (clear_graph [] cfgRoot true guard0 store0
        (some (AuthTok.codeSuffix 5))).1 = ClearGraphResult.cleared := by
  decide

/-- Claim C4 (amended): after a `clear_graph` call that returned AuthInvalid
the code has been rotated — the new code differs from the prior one, a
subsequent call with an auth built from the prior code is rejected again,
and a call with an auth built from the newly returned code succeeds — while
a call that returned AuthRequired leaves the code unchanged and shows the
current code. -/
theorem C4_amended_rotation (env : Environ) (cfg : GraphitiConfig)
    (clientReady : Bool) (st : GuardState) (g : GraphStore) (a : AuthTok)
    (hroot : cfg.group_id = some ((getenv env "MCP_ROOT_GROUP_ID").getD "root"))
    (hbad : a ≠ AuthTok.codeSuffix st.auth_code) :
    (clear_graph env cfg clientReady st g (some a)).1 =
        ClearGraphResult.authInvalid (st.auth_code + 1) ∧
    (clear_graph env cfg clientReady st g (some a)).2.1.auth_code ≠
        st.auth_code ∧
    (clear_graph env cfg clientReady
        (clear_graph env cfg clientReady st g (some a)).2.1
        (clear_graph env cfg clientReady st g (some a)).2.2
        (some (AuthTok.codeSuffix st.auth_code))).1 =
      ClearGraphResult.authInvalid (st.auth_code + 2) ∧
    (clear_graph env cfg true
        (clear_graph env cfg clientReady st g (some a)).2.1
        (clear_graph env cfg clientReady st g (some a)).2.2
        (some (AuthTok.codeSuffix (st.auth_code + 1)))).1 =
      ClearGraphResult.cleared ∧
    (clear_graph env cfg clientReady st g none).1 =
        ClearGraphResult.authRequired st.auth_code ∧
    (clear_graph env cfg clientReady st g none).2.1 = st := by
  refine ⟨?_, ?_, ?_, ?_, ?_, ?_⟩ <;>
    simp [clear_graph, hroot, hbad, rotateCode]

/-- Witness for the amended C4 at a concrete state and a concrete bad auth
string. -/
theorem C4_amended_rotation_witness :
    (cfgRoot.group_id =
        some ((getenv ([] : Environ) "MCP_ROOT_GROUP_ID").getD "root")) ∧
    (AuthTok.other "wrong" ≠ AuthTok.codeSuffix guard0.auth_code) ∧
    ((clear_graph [] cfgRoot true guard0 store0
        (some (AuthTok.other "wrong"))).1 =
          ClearGraphResult.authInvalid (guard0.auth_code + 1) ∧
     (clear_graph [] cfgRoot true guard0 store0
        (some (AuthTok.other "wrong"))).2.1.auth_code ≠ guard0.auth_code ∧
     (clear_graph [] cfgRoot true
        (clear_graph [] cfgRoot true guard0 store0
          (some (AuthTok.other "wrong"))).2.1
        (clear_graph [] cfgRoot true guard0 store0
          (some (AuthTok.other "wrong"))).2.2
        (some (AuthTok.codeSuffix guard0.auth_code))).1 =
       ClearGraphResult.authInvalid (guard0.auth_code + 2) ∧
     (clear_graph [] cfgRoot true
        (clear_graph [] cfgRoot true guard0 store0
          (some (AuthTok.other "wrong"))).2.1
        (clear_graph [] cfgRoot true guard0 store0
          (some (AuthTok.other "wrong"))).2.2
        (some (AuthTok.codeSuffix (guard0.auth_code + 1)))).1 =
       ClearGraphResult.cleared ∧
     (clear_graph [] cfgRoot true guard0 store0 none).1 =
       ClearGraphResult.authRequired guard0.auth_code ∧
     (clear_graph [] cfgRoot true guard0 store0 none).2.1 = guard0) :=
  ⟨by decide, by decide,
   C4_amended_rotation [] cfgRoot true guard0 store0
     (AuthTok.other "wrong") (by decide) (by decide)⟩

/-! ## C6: malformed JSON bodies -/

/-- A concrete task with the json source type whose body is not valid
JSON. -/
def taskJ : EpisodeTask :=
  { name := "J"
    body := "not json"
    source := EpisodeType.json
    group_id := "demo"
    source_description := ""
    uuid := none
    entity_subset := none }

/-- Claim C6 counterexample: on a json-format episode whose body fails to
parse, the parse error is logged and the pipeline is still invoked, but the
source type handed to the graph store is still `json`, not `text` — the body
is not re-labelled as text. -/
theorem C6_counterexample :
    (process_episode parseNone regDemo taskJ).parse_error_logged = true ∧
    (process_episode parseNone regDemo taskJ).persist.source =
        EpisodeType.json ∧
    (process_episode parseNone regDemo taskJ).persist.source ≠
        EpisodeType.text := by
  decide

/-- Claim C6 (amended): an `add_episode` call with json format whose body is
not parseable as JSON is not rejected — the call is queued, the parse error
is logged, and the episode is still handed to the graph store with the
original body string, under the `json` source type (not `text`). -/
theorem C6_amended_lenient_json (cfg : GraphitiConfig) (st : ServerState)
    (args : AddEpisodeArgs) (parseJson : String → Option Unit)
    (registry : Registry)
    (hfmt : pyLower args.format = "json")
    (hparse : parseJson args.episode_body = none) :
    (add_episode cfg true st args).1.isQueued = true ∧
    (process_episode parseJson registry (mkTask cfg args)).parse_error_logged
        = true ∧
    (process_episode parseJson registry
        (mkTask cfg args)).persist.episode_body = args.episode_body ∧
    (process_episode parseJson registry (mkTask cfg args)).persist.source =
        EpisodeType.json := by
  refine ⟨?_, ?_, rfl, ?_⟩
  · simp [add_episode, AddEpisodeResult.isQueued]
  · simp [process_episode, mkTask, sourceTypeOfFormat, hfmt, hparse]
  · simp [mkTask, sourceTypeOfFormat, hfmt, process_episode]

/-- Witness for the amended C6 on a concrete malformed json episode. -/
theorem C6_amended_lenient_json_witness :
    (pyLower "json" = "json") ∧
    (parseNone "not json" = none) ∧
    ((add_episode cfgDemo true st0
        { name := "J", episode_body := "not json",
          format := "json" }).1.isQueued = true ∧
     (process_episode parseNone regDemo
        (mkTask cfgDemo
          { name := "J", episode_body := "not json",
            format := "json" })).parse_error_logged = true ∧
     (process_episode parseNone regDemo
        (mkTask cfgDemo
          { name := "J", episode_body := "not json",
            format := "json" })).persist.episode_body = "not json" ∧
     (process_episode parseNone regDemo
        (mkTask cfgDemo
          { name := "J", episode_body := "not json",
            format := "json" })).persist.source = EpisodeType.json) :=
  ⟨by decide, rfl,
   C6_amended_lenient_json cfgDemo st0
     { name := "J", episode_body := "not json", format := "json" }
     parseNone regDemo (by decide) rfl⟩

/-! ## C8: duplicate entity registration -/

/-- Claim C8 counterexample: registering a second entity class under an
already-registered name does replace the earlier binding, but the
replacing `register_entity` call emits no warning. -/
theorem C8_counterexample :
    dget (register_entity (register_entity [] "Agent" 1).1 "Agent" 2).1
        "Agent" = some 2 ∧
    (register_entity (register_entity [] "Agent" 1).1 "Agent" 2).2 =
        ([] : List String) := by
  decide

/-- Claim C8 (amended): when two entity classes are registered under the
same name, the later registration replaces the earlier one in the registry,
and no warning is emitted at the time of replacement. -/
theorem C8_amended_replace_no_warning (r : Registry) (name : String)
    (c1 c2 : EntityClass) :
    dget (register_entity (register_entity r name c1).1 name c2).1 name =
        some c2 ∧
    (register_entity (register_entity r name c1).1 name c2).2 = [] := by
  exact ⟨dget_dset _ _ _, rfl⟩

/-! ## C9: the shapes returned by get_episodes -/

/-- Claim C9 counterexample: with the client ready and a valid namespace
that contains no episodes, `get_episodes` returns the
message-plus-empty-list record — neither the declared bare-list success
shape nor an error shape. -/
theorem C9_counterexample :
    (get_episodes retrieveEmpty cfgDemo true (some "demo")
        10).isEpisodeList = false ∧
    (get_episodes retrieveEmpty cfgDemo true (some "demo") 10).isError
        = false ∧
    get_episodes retrieveEmpty cfgDemo true (some "demo") 10 =
      GetEpisodesResult.messageShape "No episodes found for group demo" [] := by
  decide

/-- Claim C9 (amended): a successful `get_episodes` call returns the
declared bare list of episode records when the namespace has episodes; when
the namespace contains no episodes it instead returns the
message-plus-empty-list shape. -/
theorem C9_amended_shapes (retrieve : String → Nat → List EpisodeRecord)
    (cfg : GraphitiConfig) (group_id : Option String) (last_n : Nat)
    (g : String)
    (hg : (group_id).orElse (fun _ => cfg.group_id) = some g) :
    get_episodes retrieve cfg true group_id last_n =
      if retrieve g last_n = [] then
        GetEpisodesResult.messageShape ("No episodes found for group " ++ g) []
      else
        GetEpisodesResult.episodeList (retrieve g last_n) := by
  simp only [get_episodes, hg]
  cases h : retrieve g last_n with
  | nil => simp [h]
  | cons e es => simp [h]

/-- Witness for the amended C9 at a concrete empty namespace. -/
theorem C9_amended_shapes_witness :
    ((some "demo" : Option String).orElse (fun _ => cfgDemo.group_id) =
        some "demo") ∧
    get_episodes retrieveEmpty cfgDemo true (some "demo") 10 =
      (if retrieveEmpty "demo" 10 = [] then
        GetEpisodesResult.messageShape
          ("No episodes found for group " ++ "demo") []
      else
        GetEpisodesResult.episodeList (retrieveEmpty "demo" 10)) :=
  ⟨by decide,
   C9_amended_shapes retrieveEmpty cfgDemo (some "demo") 10 "demo"
     (by decide)⟩

/-! ## C1 and C2: the duplicate-worker race

The spawn check in `add_episode` reads `queue_workers.get(group_id_str,
False)`, but a worker coroutine sets `queue_workers[group_id] = True` only
when the event loop first runs it — after `asyncio.create_task` has already
returned.  Two `add_episode` calls for a fresh namespace whose synchronous
sections both run before the event loop starts the first worker therefore
both schedule a worker, and the two workers then consume the same
namespace's queue concurrently. -/

/-- First episode for the fresh namespace `g`. -/
def argsE1 : AddEpisodeArgs :=
  { name := "E1", episode_body := "b1", group_id := some "g" }

/-- Second episode for the fresh namespace `g`. -/
def argsE2 : AddEpisodeArgs :=
  { name := "E2", episode_body := "b2", group_id := some "g" }

/-- The racing interleaving: both `add_episode` synchronous sections run
before the event loop starts either scheduled worker; then both workers
start and each pops one task of namespace `g`. -/
def raceEvents : List SchedEvent :=
  [SchedEvent.call argsE1, SchedEvent.call argsE2,
   SchedEvent.startWorker 0, SchedEvent.startWorker 0,
   SchedEvent.workerGet 0, SchedEvent.workerGet 1]

/-- The same interleaving continued: the second worker finishes its task
(the second-enqueued episode) before the first worker finishes the
first-enqueued one. -/
def raceEventsFinish : List SchedEvent :=
  raceEvents ++ [SchedEvent.workerFinish 1, SchedEvent.workerFinish 0]

/-- Claim C2 evaluated at the failing interleaving: every event of the race
trace is enabled, and in the resulting state two workers — both consuming
namespace `g` — each hold a task of `g` in the processing state, so the
number of `g`-tasks in flight is 2, not at most 1. -/
theorem C2_two_concurrent_workers_same_namespace :
    (run cfg0 st0 raceEvents).map
        (fun st =>
          (processingCount st "g", st.workers.map WorkerState.group_id)) =
      some (2, ["g", "g"]) := by
  decide

/-- Claim C1 evaluated at the failing interleaving: the two episodes are
enqueued for namespace `g` in the order E1, E2, but their background
processing completes in the order E2, E1. -/
theorem C1_completion_order_differs_from_enqueue_order :
    (run cfg0 st0 raceEventsFinish).map
        (fun st =>
          (st.enqueue_log.map (fun p => p.2.name),
           st.complete_log.map (fun p => p.2.name))) =
      some (["E1", "E2"], ["E2", "E1"]) := by
  decide

end Graphiti
